import Mathlib

/-!
Verification of the Pokeball Plus controller driver app.

The Python source has one decoding routine, `handle_input`, which parses a
14-byte BLE input-report packet (timestamp, buttons, joystick, gyro,
accelerometer) inside a `try/except` that appends exactly one log line per
notification, and one session routine, `connect_to_device`, which scans for
the device, connects, reads three device-info characteristics and then
listens for input notifications until cancellation.

The embedding models Python byte strings as `List ℕ` (each element a byte
value), Python slicing with its negative-index and clamping semantics,
`int.from_bytes` in both unsigned and signed flavors, `bytes.hex()` as the
list of nybble values, and float arithmetic as exact rational arithmetic
over `ℚ` (every concrete value the claims mention is exactly representable).
The one operation in the decoder body that can raise, indexing into the
4-character hex string of the joystick-X field, is modelled in `Option`.
-/

namespace PokeballPlus

/-- Calibration constant `JOY_X_MIN` from the source. -/
def JOY_X_MIN : ℤ := 7980

/-- Calibration constant `JOY_X_MAX` from the source. -/
def JOY_X_MAX : ℤ := 49620

/-- Calibration constant `JOY_Y_MIN` from the source. -/
def JOY_Y_MIN : ℤ := 13350

/-- Calibration constant `JOY_Y_MAX` from the source. -/
def JOY_Y_MAX : ℤ := 50280

/-- Python slice `data[start:stop]` on a byte sequence, with Python's
negative-index and clamping semantics; `stop = none` means slicing to the
end, as in `data[-1:]`. -/
def pySliceI (data : List ℕ) (start : ℤ) (stop : Option ℤ) : List ℕ :=
  let n : ℤ := data.length
  let lo : ℕ := if start < 0 then (start + n).toNat else start.toNat
  let hi : ℕ :=
    match stop with
    | none => data.length
    | some s => if s < 0 then (s + n).toNat else s.toNat
  (data.take hi).drop lo

/-- Python `int.from_bytes(bs, "big")`: unsigned big-endian; the empty byte
string gives 0. -/
def int_from_bytes (bs : List ℕ) : ℕ :=
  bs.foldl (fun acc b => 256 * acc + b) 0

/-- Python `int.from_bytes(bs, "big", signed=True)`: two's-complement
big-endian; the empty byte string gives 0.  This is the local helper
`toInt` in `handle_input`. -/
def toInt (bs : List ℕ) : ℤ :=
  let u := int_from_bytes bs
  if u < 2 ^ (8 * bs.length - 1) then (u : ℤ) else (u : ℤ) - 2 ^ (8 * bs.length)

/-- Python `bytes.hex()`: the sequence of hex digits of the bytes, most
significant nybble of each byte first, with each digit represented by its
numeric value 0..15. -/
def pyHex (bs : List ℕ) : List ℕ :=
  bs.foldr (fun b acc => b / 16 :: b % 16 :: acc) []

/-- Python `int(s, 16)` for a string of hex digits given as numeric nybble
values. -/
def int_of_hex (ds : List ℕ) : ℕ :=
  ds.foldl (fun acc d => 16 * acc + d) 0

/-- One decoded input sample: exactly the fields `handle_input` computes and
interpolates into the formatted log line. -/
structure InputSample where
  time : ℕ
  top_pressed : Bool
  joy_pressed : Bool
  joyX : ℚ
  joyY : ℚ
  gyroX : ℚ
  gyroY : ℚ
  gyroZ : ℚ
  gyroW : ℚ
  accelX : ℚ
  accelY : ℚ
  accelZ : ℚ
deriving DecidableEq

/-- The single log line `handle_input` appends per notification: the
formatted sample line from the `try` block, or the parse-error line from the
`except` block. -/
inductive LogLine where
  | sample (s : InputSample)
  | parseError
deriving DecidableEq

/-- Source lines 90-92 up to the `int(joyX, 16)` reparse: the raw
permuted-nybble joystick-X value.  The string indexings `joyX_raw[3]`,
`joyX_raw[0]`, `joyX_raw[2]`, `joyX_raw[1]` can raise `IndexError` when the
hex string of `data[2:4]` is shorter than 4 characters, so they are
modelled in `Option`. -/
def joyX_raw_value (data : List ℕ) : Option ℕ := do
  let joyX_hex := pyHex (pySliceI data 2 (some 4))
  let c3 ← joyX_hex.get? 3
  let c0 ← joyX_hex.get? 0
  let c2 ← joyX_hex.get? 2
  let c1 ← joyX_hex.get? 1
  pure (int_of_hex [c3, c0, c2, c1])

/-- The `try` block of `handle_input` (source lines 83-115): all field
extractions.  The only failure point is the hex-string indexing inside
`joyX_raw_value`; every slice and `int.from_bytes` call is total in Python
(out-of-range slices silently truncate or come back empty). -/
def handle_input_body (data : List ℕ) : Option InputSample := do
  let time := int_from_bytes (pySliceI data 0 (some 1))
  let buttons := int_from_bytes (pySliceI data 1 (some 2))
  let top_pressed : Bool := buttons &&& 1 != 0
  let joy_pressed : Bool := buttons &&& 2 != 0
  let raw ← joyX_raw_value data
  let joyX0 : ℤ := (raw : ℤ) - JOY_X_MIN
  let joyX1 : ℚ := (joyX0 : ℚ) / ((JOY_X_MAX - JOY_X_MIN : ℤ) : ℚ)
  let joyX : ℚ := 2 * joyX1 - 1
  let joyY0 : ℤ := (int_from_bytes (pySliceI data 4 (some 6)) : ℤ) - JOY_Y_MIN
  let joyY1 : ℚ := (joyY0 : ℚ) / ((JOY_Y_MAX - JOY_Y_MIN : ℤ) : ℚ)
  let joyY : ℚ := -2 * joyY1 + 1
  let gyroX : ℚ := (toInt (pySliceI data 6 (some 8)) : ℚ) / 5600
  let gyroY : ℚ := (toInt (pySliceI data 8 (some 10)) : ℚ) / 5600
  let gyroZ : ℚ := (toInt (pySliceI data 10 (some 12)) : ℚ) / 5600
  let gyroW : ℚ := (toInt (pySliceI data 12 (some 14)) : ℚ) / 32767
  let accelX : ℚ := (toInt (pySliceI data (-1) none) : ℚ) / 127
  let accelY : ℚ := (toInt (pySliceI data (-2) (some (-1))) : ℚ) / 127
  let accelZ : ℚ := (toInt (pySliceI data (-3) (some (-2))) : ℚ) / 127
  pure ⟨time, top_pressed, joy_pressed, joyX, joyY, gyroX, gyroY, gyroZ, gyroW,
    accelX, accelY, accelZ⟩

/-- `handle_input` (source lines 82-117): the `try/except` turns every
notification into exactly one appended log line, the formatted sample line
on success or the parse-error line when extraction raised. -/
def handle_input (data : List ℕ) : LogLine :=
  match handle_input_body data with
  | some s => LogLine.sample s
  | none => LogLine.parseError

/-- Whether a log line is a formatted sample line (as opposed to the
parse-error line). -/
def isSample : LogLine → Bool
  | LogLine.sample _ => true
  | LogLine.parseError => false

/-- The joystick-X field of a sample log line, if any. -/
def logJoyX : LogLine → Option ℚ
  | LogLine.sample s => some s.joyX
  | LogLine.parseError => none

/-- The joystick-Y field of a sample log line, if any. -/
def logJoyY : LogLine → Option ℚ
  | LogLine.sample s => some s.joyY
  | LogLine.parseError => none

/-- The accelerometer-X field of a sample log line, if any. -/
def logAccelX : LogLine → Option ℚ
  | LogLine.sample s => some s.accelX
  | LogLine.parseError => none

/-- The accelerometer-Y field of a sample log line, if any. -/
def logAccelY : LogLine → Option ℚ
  | LogLine.sample s => some s.accelY
  | LogLine.parseError => none

/-- The accelerometer-Z field of a sample log line, if any. -/
def logAccelZ : LogLine → Option ℚ
  | LogLine.sample s => some s.accelZ
  | LogLine.parseError => none

/-- Processing a sequence of delivered notifications: the notification
callback is invoked once per packet and, because of its `try/except`, always
returns, so listening continues and each packet contributes exactly one log
line. -/
def handle_notifications (packets : List (List ℕ)) : List LogLine :=
  packets.map handle_input

/-- The nybble permutation the spec describes for the joystick-X field: from
the big-endian hex digits (n0, n1, n2, n3) of the 2-byte field, build the
string (n3, n0, n2, n1) and reparse it as a 16-bit unsigned integer. -/
def nybblePermSpec (b2 b3 : ℕ) : ℕ :=
  (b3 % 16) * 4096 + (b2 / 16) * 256 + (b3 / 16) * 16 + (b2 % 16)

/-- Signed 8-bit reinterpretation of a byte value, as the spec describes the
accelerometer bytes. -/
def signed8 (b : ℕ) : ℤ :=
  if b < 128 then (b : ℤ) else (b : ℤ) - 256

/-- The user-visible log lines `connect_to_device` can append, in source
order: the scan banner, the not-found message, the found-device message, the
failed-to-connect message, the connected message, the read-error message,
the three device-info lines, the listening banner, one line per input
notification, and the stopped message. -/
inductive SessionLine where
  | scanning
  | notFound
  | foundDevice
  | failedToConnect
  | connected
  | errorReadingData
  | manufacturerLine
  | batteryLine
  | softwareLine
  | listening
  | input (l : LogLine)
  | stoppedListening
deriving DecidableEq

/-- Outcomes of the external BLE operations awaited by `connect_to_device`:
whether the 30-second scan finds the device, whether the client reports a
connection after entering the `async with` block, the three characteristic
reads (`none` means the `await client.read_gatt_char` raised), and the
notification payloads delivered while listening until cancellation. -/
structure Env where
  scanFound : Bool
  connectOk : Bool
  manufacturerRead : Option (List ℕ)
  softwareRead : Option (List ℕ)
  batteryRead : Option (List ℕ)
  notifications : List (List ℕ)
deriving DecidableEq

/-- Observable outcome of one run of `connect_to_device`: the log lines it
appended, whether the start button is enabled when the run ends, whether
`start_notify` on the input characteristic was ever reached, and whether an
established BLE connection was closed again (the `async with` exit runs on
every path out of the block). -/
structure SessionResult where
  logs : List SessionLine
  startEnabled : Bool
  subscribed : Bool
  disconnected : Bool
deriving DecidableEq

/-- `connect_to_device` (source lines 41-80).  The button is disabled on
entry; the scan-failure branch logs not-found and re-enables it; the
connect-failure branch logs the failure and returns with the button still
disabled; a raise in any of the three characteristic reads is caught, logged
once, and the button re-enabled; otherwise the three info lines are logged,
the input characteristic is subscribed and notifications are handled until
cancellation, which unsubscribes, logs stopped and re-enables the button. -/
def connect_to_device (env : Env) : SessionResult :=
  if !env.scanFound then
    { logs := [SessionLine.scanning, SessionLine.notFound]
      startEnabled := true
      subscribed := false
      disconnected := false }
  else if !env.connectOk then
    { logs := [SessionLine.scanning, SessionLine.foundDevice, SessionLine.failedToConnect]
      startEnabled := false
      subscribed := false
      disconnected := true }
  else
    match env.manufacturerRead, env.softwareRead, env.batteryRead with
    | some _, some _, some _ =>
      { logs := [SessionLine.scanning, SessionLine.foundDevice, SessionLine.connected,
            SessionLine.manufacturerLine, SessionLine.batteryLine, SessionLine.softwareLine,
            SessionLine.listening]
          ++ (handle_notifications env.notifications).map SessionLine.input
          ++ [SessionLine.stoppedListening]
        startEnabled := true
        subscribed := true
        disconnected := true }
    | _, _, _ =>
      { logs := [SessionLine.scanning, SessionLine.foundDevice, SessionLine.connected,
          SessionLine.errorReadingData]
        startEnabled := true
        subscribed := false
        disconnected := true }

/-- Helper: `handle_input` on any 14-byte packet, with every field in closed
form.  The raw joystick-X value is the permuted-nybble reparse, joystick-Y
is the unsigned big-endian 16-bit value of bytes 4 and 5, and each
accelerometer byte is read signed from the last three positions. -/
theorem handle_input_fourteen (b0 b1 b2 b3 b4 b5 b6 b7 b8 b9 b10 b11 b12 b13 : ℕ) :
    handle_input [b0, b1, b2, b3, b4, b5, b6, b7, b8, b9, b10, b11, b12, b13] =
      LogLine.sample
        ⟨b0, b1 &&& 1 != 0, b1 &&& 2 != 0,
          2 * (((nybblePermSpec b2 b3 : ℚ) - 7980) / 41640) - 1,
          -2 * ((256 * (b4 : ℚ) + (b5 : ℚ) - 13350) / 36930) + 1,
          (toInt [b6, b7] : ℚ) / 5600, (toInt [b8, b9] : ℚ) / 5600,
          (toInt [b10, b11] : ℚ) / 5600, (toInt [b12, b13] : ℚ) / 32767,
          (signed8 b13 : ℚ) / 127, (signed8 b12 : ℚ) / 127, (signed8 b11 : ℚ) / 127⟩ := by
  have hperm : int_of_hex [b3 % 16, b2 / 16, b3 / 16, b2 % 16] = nybblePermSpec b2 b3 := by
    simp [int_of_hex, nybblePermSpec]
    ring
  have hraw : joyX_raw_value [b0, b1, b2, b3, b4, b5, b6, b7, b8, b9, b10, b11, b12, b13] =
      some (int_of_hex [b3 % 16, b2 / 16, b3 / 16, b2 % 16]) := rfl
  have hsgn : ∀ b : ℕ, toInt [b] = signed8 b := by
    intro b
    simp [toInt, int_from_bytes, signed8]
  have hs01 : pySliceI [b0, b1, b2, b3, b4, b5, b6, b7, b8, b9, b10, b11, b12, b13] 0 (some 1) = [b0] := rfl
  have hs12 : pySliceI [b0, b1, b2, b3, b4, b5, b6, b7, b8, b9, b10, b11, b12, b13] 1 (some 2) = [b1] := rfl
  have hs45 : pySliceI [b0, b1, b2, b3, b4, b5, b6, b7, b8, b9, b10, b11, b12, b13] 4 (some 6) = [b4, b5] := rfl
  have hs67 : pySliceI [b0, b1, b2, b3, b4, b5, b6, b7, b8, b9, b10, b11, b12, b13] 6 (some 8) = [b6, b7] := rfl
  have hs89 : pySliceI [b0, b1, b2, b3, b4, b5, b6, b7, b8, b9, b10, b11, b12, b13] 8 (some 10) = [b8, b9] := rfl
  have hsab : pySliceI [b0, b1, b2, b3, b4, b5, b6, b7, b8, b9, b10, b11, b12, b13] 10 (some 12) = [b10, b11] := rfl
  have hscd : pySliceI [b0, b1, b2, b3, b4, b5, b6, b7, b8, b9, b10, b11, b12, b13] 12 (some 14) = [b12, b13] := rfl
  have hm1 : pySliceI [b0, b1, b2, b3, b4, b5, b6, b7, b8, b9, b10, b11, b12, b13] (-1) none = [b13] := rfl
  have hm2 : pySliceI [b0, b1, b2, b3, b4, b5, b6, b7, b8, b9, b10, b11, b12, b13] (-2) (some (-1)) = [b12] := rfl
  have hm3 : pySliceI [b0, b1, b2, b3, b4, b5, b6, b7, b8, b9, b10, b11, b12, b13] (-3) (some (-2)) = [b11] := rfl
  unfold handle_input handle_input_body
  rw [hraw, hperm]
  simp only [Option.bind_eq_bind, Option.some_bind, Option.pure_def]
  rw [hs01, hs12, hs45, hs67, hs89, hsab, hscd, hm1, hm2, hm3]
  congr 1
  rw [InputSample.mk.injEq]
  refine ⟨?_, ?_, ?_, ?_, ?_, ?_, ?_, ?_, ?_, ?_, ?_, ?_⟩
  · simp [int_from_bytes]
  · simp [int_from_bytes]
  · simp [int_from_bytes]
  · simp only [JOY_X_MIN, JOY_X_MAX]
    push_cast
    ring
  · simp [int_from_bytes, JOY_Y_MIN, JOY_Y_MAX]
  · rfl
  · rfl
  · rfl
  · rfl
  · rw [hsgn]
  · rw [hsgn]
  · rw [hsgn]

/-- Helper: on any buffer shorter than 4 bytes the hex string of `data[2:4]`
has fewer than 4 characters, the indexing `joyX_raw[3]` raises, and the
`except` branch appends the parse-error line. -/
theorem handle_input_short (data : List ℕ) (h : data.length < 4) :
    handle_input data = LogLine.parseError := by
  match data with
  | [] => rfl
  | [a] => rfl
  | [a, b] => rfl
  | [a, b, c] => rfl
  | a :: b :: c :: d :: rest =>
    simp only [List.length_cons] at h
    omega

/-- Helper: on any buffer with at least 4 bytes every extraction succeeds
and a sample line is appended. -/
theorem handle_input_cons4_isSample (b0 b1 b2 b3 : ℕ) (rest : List ℕ) :
    isSample (handle_input (b0 :: b1 :: b2 :: b3 :: rest)) = true := rfl

/-- C1: on every 14-byte buffer the decoder computes the raw joystick-X
value by permuting the 4 hex nybbles of the 2-byte field at bytes [2:4] in
the order (nybble3, nybble0, nybble2, nybble1) and reparsing that 4-nybble
string as a 16-bit unsigned integer. -/
theorem C1_joyX_raw_nybble_permutation (b0 b1 b2 b3 : ℕ) (rest : List ℕ)
    (hlen : (b0 :: b1 :: b2 :: b3 :: rest).length = 14)
    (hb2 : b2 < 256) (hb3 : b3 < 256) :
    joyX_raw_value (b0 :: b1 :: b2 :: b3 :: rest) = some (nybblePermSpec b2 b3) ∧
      nybblePermSpec b2 b3 < 65536 := by
  have hperm : int_of_hex [b3 % 16, b2 / 16, b3 / 16, b2 % 16] = nybblePermSpec b2 b3 := by
    simp [int_of_hex, nybblePermSpec]
    ring
  have hraw : joyX_raw_value (b0 :: b1 :: b2 :: b3 :: rest) =
      some (int_of_hex [b3 % 16, b2 / 16, b3 / 16, b2 % 16]) := rfl
  refine ⟨by rw [hraw, hperm], ?_⟩
  simp only [nybblePermSpec]
  omega

/-- Witness for C1 at the buffer with field bytes 0x12 0x34. -/
theorem C1_joyX_raw_nybble_permutation_witness :
    joyX_raw_value [0, 0, 18, 52, 0, 0, 0, 0, 0, 0, 0, 0, 0, 0] =
        some (nybblePermSpec 18 52) ∧
      nybblePermSpec 18 52 < 65536 :=
  C1_joyX_raw_nybble_permutation 0 0 18 52 [0, 0, 0, 0, 0, 0, 0, 0, 0, 0]
    (by decide) (by decide) (by decide)

/-- C2 counterexample: for field bytes 0x12 0x34 the hex string is "1234"
and the index order (3, 0, 2, 1) builds "4132", so the decoder produces
0x4132 = 16690 -- not "4123" = 16675 as the claim computes. -/
theorem C2_counterexample :
    joyX_raw_value [0, 0, 18, 52, 0, 0, 0, 0, 0, 0, 0, 0, 0, 0] = some 16690 ∧
      (16690 : ℕ) ≠ 16675 := ⟨rfl, by decide⟩

/-- C2 (amended): for the raw 2-byte field with bytes 0x12 0x34 the hex
digits are (1, 2, 3, 4), the permuted string is "4132" (digits 4, 1, 3, 2),
and it reparses to 0x4132 = 16690 before normalization. -/
theorem C2_concrete_permutation :
    pyHex [18, 52] = [1, 2, 3, 4] ∧
      int_of_hex [4, 1, 3, 2] = 16690 ∧
      joyX_raw_value [0, 0, 18, 52, 0, 0, 0, 0, 0, 0, 0, 0, 0, 0] = some 16690 :=
  ⟨rfl, rfl, rfl⟩

/-- C3 counterexample: a 13-byte buffer, shorter than the required 14, does
not fail -- it still produces a formatted sample line. -/
theorem C3_counterexample :
    isSample (handle_input [0, 0, 0, 0, 0, 0, 0, 0, 0, 0, 0, 0, 0]) = true := rfl

/-- C3 (amended): decoding fails with the single parse-error log line for
every buffer shorter than 4 bytes (buffers of length 4 to 13 decode to a
sample line instead). -/
theorem C3_short_buffer_error (data : List ℕ) (h : data.length < 4) :
    handle_input data = LogLine.parseError :=
  handle_input_short data h

/-- Witness for C3 at the 3-byte buffer of zeros. -/
theorem C3_short_buffer_error_witness :
    handle_input [0, 0, 0] = LogLine.parseError :=
  C3_short_buffer_error [0, 0, 0] (by decide)

/-- C4: when the device is found but connecting fails, the session appends
exactly one failure line after the scan and found lines and ends -- but the
start button is left disabled: `setEnabled(True)` is never called on this
path, contradicting the claim that the start action is re-enabled so the
user can retry. -/
theorem C4_connect_failure_button_left_disabled :
    connect_to_device ⟨true, false, none, none, none, []⟩ =
      { logs := [SessionLine.scanning, SessionLine.foundDevice, SessionLine.failedToConnect]
        startEnabled := false
        subscribed := false
        disconnected := true } := rfl

/-- C5: on every 14-byte buffer joystickX and joystickY follow the affine
normalization formulas over the raw values, and the calibration midpoints
raw X = 28800 (field bytes 0x00 0x87), raw Y = 31815 (bytes 0x7C 0x47) map
exactly to (0, 0). -/
theorem C5_joystick_normalization :
    (∀ b0 b1 b2 b3 b4 b5 b6 b7 b8 b9 b10 b11 b12 b13 : ℕ,
      logJoyX (handle_input [b0, b1, b2, b3, b4, b5, b6, b7, b8, b9, b10, b11, b12, b13]) =
          some (2 * (((nybblePermSpec b2 b3 : ℚ) - 7980) / (49620 - 7980)) - 1) ∧
        logJoyY (handle_input [b0, b1, b2, b3, b4, b5, b6, b7, b8, b9, b10, b11, b12, b13]) =
          some (-2 * ((256 * (b4 : ℚ) + (b5 : ℚ) - 13350) / (50280 - 13350)) + 1)) ∧
      logJoyX (handle_input [0, 0, 0, 135, 124, 71, 0, 0, 0, 0, 0, 0, 0, 0]) = some 0 ∧
      logJoyY (handle_input [0, 0, 0, 135, 124, 71, 0, 0, 0, 0, 0, 0, 0, 0]) = some 0 ∧
      nybblePermSpec 0 135 = 28800 ∧
      int_from_bytes [124, 71] = 31815 := by
  refine ⟨?_, ?_, ?_, by norm_num [nybblePermSpec], by norm_num [int_from_bytes]⟩
  · intro b0 b1 b2 b3 b4 b5 b6 b7 b8 b9 b10 b11 b12 b13
    rw [handle_input_fourteen]
    constructor
    · simp only [logJoyX]
      norm_num
    · simp only [logJoyY]
      norm_num
  · rw [handle_input_fourteen 0 0 0 135 124 71 0 0 0 0 0 0 0 0]
    simp only [logJoyX]
    norm_num [nybblePermSpec]
  · rw [handle_input_fourteen 0 0 0 135 124 71 0 0 0 0 0 0 0 0]
    simp only [logJoyY]
    norm_num

/-- Witness for C5 at the all-zero buffer. -/
theorem C5_joystick_normalization_witness :
    logJoyX (handle_input [0, 0, 0, 0, 0, 0, 0, 0, 0, 0, 0, 0, 0, 0]) =
      some (2 * (((nybblePermSpec 0 0 : ℚ) - 7980) / (49620 - 7980)) - 1) :=
  (C5_joystick_normalization.1 0 0 0 0 0 0 0 0 0 0 0 0 0 0).1

/-- C6: the notification handler is total -- every delivered buffer yields
exactly one appended log line, either a sample line or the parse-error line,
so a malformed packet never terminates the session: each later notification
still contributes its own line, and a full listening session logs one input
line per packet between the listening banner and the stopped line. -/
theorem C6_handler_total_one_line_each :
    (∀ packets : List (List ℕ),
        (handle_notifications packets).length = packets.length) ∧
      (∀ data : List ℕ,
        isSample (handle_input data) = true ∨ handle_input data = LogLine.parseError) ∧
      (∀ bad : List ℕ, ∀ rest : List (List ℕ),
        handle_notifications (bad :: rest) =
          handle_input bad :: handle_notifications rest) ∧
      (∀ m s b : List ℕ, ∀ packets : List (List ℕ),
        (connect_to_device ⟨true, true, some m, some s, some b, packets⟩).logs =
          [SessionLine.scanning, SessionLine.foundDevice, SessionLine.connected,
              SessionLine.manufacturerLine, SessionLine.batteryLine, SessionLine.softwareLine,
              SessionLine.listening]
            ++ (handle_notifications packets).map SessionLine.input
            ++ [SessionLine.stoppedListening]) := by
  refine ⟨?_, ?_, ?_, ?_⟩
  · intro packets
    simp [handle_notifications]
  · intro data
    cases hl : handle_input data with
    | sample s =>
      left
      simp [isSample]
    | parseError =>
      right
      rfl
  · intro bad rest
    rfl
  · intro m s b packets
    rfl

/-- Witness for C6 at the empty notification batch. -/
theorem C6_handler_total_one_line_each_witness :
    (handle_notifications []).length = ([] : List (List ℕ)).length :=
  C6_handler_total_one_line_each.1 []

/-- C7: the all-zero 14-byte buffer decodes to joystickX = -480/347 < -1 and
joystickY = 2121/1231 > 1 -- both strictly outside [-1, 1], demonstrating
that the decoder applies no clamping. -/
theorem C7_zero_buffer_out_of_range :
    logJoyX (handle_input (List.replicate 14 0)) = some (-480 / 347) ∧
      logJoyY (handle_input (List.replicate 14 0)) = some (2121 / 1231) ∧
      ((-480 : ℚ) / 347 < -1) ∧ (1 < (2121 : ℚ) / 1231) := by
  refine ⟨?_, ?_, by norm_num, by norm_num⟩
  · simp [handle_input, handle_input_body, joyX_raw_value, pySliceI, pyHex, int_of_hex,
      int_from_bytes, toInt, JOY_X_MIN, JOY_X_MAX, logJoyX, List.replicate]
    norm_num
  · simp [handle_input, handle_input_body, joyX_raw_value, pySliceI, pyHex, int_of_hex,
      int_from_bytes, toInt, JOY_Y_MIN, JOY_Y_MAX, logJoyY, List.replicate]
    norm_num

/-- C8: after a successful scan and connect, failure of any of the three
device-info characteristic reads produces exactly the four log lines ending
in the single read-error line, re-enables the start button, closes the
connection, and never subscribes to the input-report characteristic. -/
theorem C8_read_failure_aborts_session (env : Env) (hs : env.scanFound = true)
    (hc : env.connectOk = true)
    (hr : env.manufacturerRead = none ∨ env.softwareRead = none ∨ env.batteryRead = none) :
    connect_to_device env =
      { logs := [SessionLine.scanning, SessionLine.foundDevice, SessionLine.connected,
          SessionLine.errorReadingData]
        startEnabled := true
        subscribed := false
        disconnected := true } := by
  obtain ⟨sf, co, mr, sr, br, ns⟩ := env
  simp only at hs hc hr
  subst hs
  subst hc
  cases mr with
  | none => rfl
  | some m =>
    cases sr with
    | none => rfl
    | some s =>
      cases br with
      | none => rfl
      | some b =>
        rcases hr with h | h | h <;> simp at h

/-- Witness for C8 with all three reads failing. -/
theorem C8_read_failure_aborts_session_witness :
    connect_to_device ⟨true, true, none, none, none, []⟩ =
      { logs := [SessionLine.scanning, SessionLine.foundDevice, SessionLine.connected,
          SessionLine.errorReadingData]
        startEnabled := true
        subscribed := false
        disconnected := true } :=
  C8_read_failure_aborts_session ⟨true, true, none, none, none, []⟩ rfl rfl (Or.inl rfl)

/-- C9: each accelerometer byte -- the last, second-to-last and
third-to-last byte of the packet -- is interpreted as a signed 8-bit integer
divided by 127; in particular the byte 0xFF gives -1/127, not 255/127. -/
theorem C9_accel_signed_interpretation :
    (∀ b0 b1 b2 b3 b4 b5 b6 b7 b8 b9 b10 b11 b12 b13 : ℕ,
      logAccelX (handle_input [b0, b1, b2, b3, b4, b5, b6, b7, b8, b9, b10, b11, b12, b13]) =
          some ((signed8 b13 : ℚ) / 127) ∧
        logAccelY (handle_input [b0, b1, b2, b3, b4, b5, b6, b7, b8, b9, b10, b11, b12, b13]) =
          some ((signed8 b12 : ℚ) / 127) ∧
        logAccelZ (handle_input [b0, b1, b2, b3, b4, b5, b6, b7, b8, b9, b10, b11, b12, b13]) =
          some ((signed8 b11 : ℚ) / 127)) ∧
      logAccelX (handle_input [0, 0, 0, 0, 0, 0, 0, 0, 0, 0, 0, 0, 0, 255]) =
        some (-1 / 127) ∧
      signed8 255 = -1 := by
  refine ⟨?_, ?_, by norm_num [signed8]⟩
  · intro b0 b1 b2 b3 b4 b5 b6 b7 b8 b9 b10 b11 b12 b13
    rw [handle_input_fourteen]
    exact ⟨rfl, rfl, rfl⟩
  · rw [handle_input_fourteen 0 0 0 0 0 0 0 0 0 0 0 0 0 255]
    simp only [logAccelX]
    norm_num [signed8]

/-- Witness for C9 at the all-zero buffer. -/
theorem C9_accel_signed_interpretation_witness :
    logAccelX (handle_input [0, 0, 0, 0, 0, 0, 0, 0, 0, 0, 0, 0, 0, 0]) =
      some ((signed8 0 : ℚ) / 127) :=
  (C9_accel_signed_interpretation.1 0 0 0 0 0 0 0 0 0 0 0 0 0 0).1

/-- C10: the parse-error branch is taken exactly for buffers shorter than 4
bytes; a 4-byte buffer decodes to a sample line in which the fully
out-of-range 2-byte slices decode to raw 0 (joystick-Y raw 0 and all four
gyro fields 0) and the accelerometer fields are read from the last three
bytes actually present -- here the buttons byte and the two joystick-X
bytes. -/
theorem C10_parse_error_iff_short :
    (∀ data : List ℕ, handle_input data = LogLine.parseError ↔ data.length < 4) ∧
      ∀ a b c d : ℕ,
        handle_input [a, b, c, d] =
          LogLine.sample
            ⟨a, b &&& 1 != 0, b &&& 2 != 0,
              2 * (((nybblePermSpec c d : ℚ) - 7980) / 41640) - 1,
              -2 * (((0 : ℚ) - 13350) / 36930) + 1,
              0, 0, 0, 0,
              (signed8 d : ℚ) / 127, (signed8 c : ℚ) / 127, (signed8 b : ℚ) / 127⟩ := by
  constructor
  · intro data
    constructor
    · intro h
      by_contra hlen
      push_neg at hlen
      rcases data with _ | ⟨a, _ | ⟨b, _ | ⟨c, _ | ⟨d, rest⟩⟩⟩⟩
      · simp at hlen
      · simp at hlen
      · simp at hlen
      · simp at hlen
      · have hok := handle_input_cons4_isSample a b c d rest
        rw [h] at hok
        simp [isSample] at hok
    · intro h
      exact handle_input_short data h
  · intro a b c d
    have hperm : int_of_hex [d % 16, c / 16, d / 16, c % 16] = nybblePermSpec c d := by
      simp [int_of_hex, nybblePermSpec]
      ring
    have hraw : joyX_raw_value [a, b, c, d] =
        some (int_of_hex [d % 16, c / 16, d / 16, c % 16]) := rfl
    have hsgn : ∀ x : ℕ, toInt [x] = signed8 x := by
      intro x
      simp [toInt, int_from_bytes, signed8]
    unfold handle_input handle_input_body
    rw [hraw, hperm]
    simp only [Option.bind_eq_bind, Option.some_bind, Option.pure_def]
    congr 1
    rw [InputSample.mk.injEq]
    have hm1 : pySliceI [a, b, c, d] (-1) none = [d] := rfl
    have hm2 : pySliceI [a, b, c, d] (-2) (some (-1)) = [c] := rfl
    have hm3 : pySliceI [a, b, c, d] (-3) (some (-2)) = [b] := rfl
    rw [hm1, hm2, hm3]
    refine ⟨?_, ?_, ?_, ?_, ?_, ?_, ?_, ?_, ?_, ?_, ?_, ?_⟩
    · simp [pySliceI, int_from_bytes]
    · simp [pySliceI, int_from_bytes]
    · simp [pySliceI, int_from_bytes]
    · simp only [JOY_X_MIN, JOY_X_MAX]
      push_cast
      ring
    · simp [pySliceI, int_from_bytes, JOY_Y_MIN, JOY_Y_MAX]
    · simp [pySliceI, toInt, int_from_bytes]
    · simp [pySliceI, toInt, int_from_bytes]
    · simp [pySliceI, toInt, int_from_bytes]
    · simp [pySliceI, toInt, int_from_bytes]
    · rw [hsgn]
    · rw [hsgn]
    · rw [hsgn]

/-- Witness for C10 at the empty buffer. -/
theorem C10_parse_error_iff_short_witness :
    handle_input [] = LogLine.parseError :=
  (C10_parse_error_iff_short.1 []).2 (by decide)

end PokeballPlus
